import Mathlib

/-!
Verification model of the WizardLightYearsCalculator repository.

The model is a shallow embedding of the Python sources:
  - `database.py`   : the Coordinate Store (SQLite table `systems`) as a map
    from system ids to records; wall-clock timestamps become explicit `Nat`
    parameters (`datetime.utcnow().isoformat()` values compare
    chronologically, so a monotone `Nat` clock is a faithful image).
  - `esi_client.py` : `ESIClient.get_system_info`, with the upstream HTTP
    interaction abstracted into an `UpstreamOutcome` input describing what
    the network would have produced for the request, and Python exceptions
    as an `Except AppExn` result.
  - `app.py`        : `get_or_fetch_system` and the exception-to-status
    mapping of the `calculate_distance_endpoint` handler chain.
  - `calculator.py` : `calculate_distance`, with IEEE doubles idealised as
    exact real arithmetic (coordinates are stored as exact rationals and
    cast to `ℝ`; `math.sqrt` becomes `Real.sqrt`).
-/

/-! ## Substring tests (Python `in` on `str`, and `str.lower`) -/

/-- `charListStartsWith p s` : the char list `p` is a prefix of `s`. -/
def charListStartsWith : List Char → List Char → Bool
  | [], _ => true
  | _ :: _, [] => false
  | p :: ps, c :: cs => p = c && charListStartsWith ps cs

/-- `charListContains pat s` : `pat` occurs contiguously inside `s`. -/
def charListContains (pat : List Char) : List Char → Bool
  | [] => charListStartsWith pat []
  | c :: cs => charListStartsWith pat (c :: cs) || charListContains pat cs

/-- Python `pat in s` on strings. -/
def strContains (s pat : String) : Bool :=
  charListContains pat.data s.data

/-- Python `s.lower()` (character-wise lowering). -/
def strLower (s : String) : String :=
  String.mk (s.data.map Char.toLower)

theorem charListStartsWith_append (p s t : List Char)
    (h : charListStartsWith p s = true) :
    charListStartsWith p (s ++ t) = true := by
  induction p generalizing s with
  | nil => rfl
  | cons a ps ih =>
    cases s with
    | nil => simp [charListStartsWith] at h
    | cons c cs =>
      simp only [charListStartsWith, Bool.and_eq_true] at h
      simp only [List.cons_append, charListStartsWith, Bool.and_eq_true]
      exact ⟨h.1, ih cs h.2⟩

theorem charListContains_append_left (pat s t : List Char)
    (h : charListContains pat s = true) :
    charListContains pat (s ++ t) = true := by
  induction s with
  | nil =>
    cases pat with
    | nil =>
      cases t with
      | nil => rfl
      | cons c cs => simp [charListContains, charListStartsWith]
    | cons a ps => simp [charListContains, charListStartsWith] at h
  | cons c cs ih =>
    simp only [charListContains, Bool.or_eq_true] at h
    simp only [List.cons_append, charListContains, Bool.or_eq_true]
    cases h with
    | inl h => exact Or.inl (charListStartsWith_append _ _ _ h)
    | inr h => exact Or.inr (ih h)

theorem charListContains_append_right (pat s t : List Char)
    (h : charListContains pat t = true) :
    charListContains pat (s ++ t) = true := by
  induction s with
  | nil => simpa using h
  | cons c cs ih =>
    simp only [List.cons_append, charListContains, Bool.or_eq_true]
    exact Or.inr ih

theorem strContains_append_left (s t pat : String)
    (h : strContains s pat = true) :
    strContains (s ++ t) pat = true := by
  have hdata : (s ++ t).data = s.data ++ t.data := by
    cases s; cases t; rfl
  unfold strContains at h ⊢
  rw [hdata]
  exact charListContains_append_left _ _ _ h

/-! ## Data model (database.py: table `systems`) -/

/-- One row of the `systems` table: the CoordinateRecord. Coordinates are
exact rationals (idealised doubles); timestamps are a logical clock. -/
structure SystemRecord where
  system_id : Int
  name : String
  x : ℚ
  y : ℚ
  z : ℚ
  added : Nat
  last_update : Nat
deriving DecidableEq, Repr

/-- The Coordinate Store: a map from system id to the stored row. -/
def Store := Int → Option SystemRecord

namespace Database

/-- `Database.get_system`: point read of the row keyed by `system_id`. -/
def get_system (db : Store) (system_id : Int) : Option SystemRecord :=
  db system_id

/-- `Database.insert_system`: INSERT with `added = last_update = now`.
The fresh-key path is the only one the Resolution Service exercises
(it inserts only after a failed lookup); a key collision would raise in
SQLite and is not modelled beyond overwriting. -/
def insert_system (db : Store) (system_id : Int) (name : String)
    (x y z : ℚ) (now : Nat) : Store :=
  fun i =>
    if i = system_id then
      some { system_id := system_id, name := name, x := x, y := y, z := z,
             added := now, last_update := now }
    else db i

/-- `Database.update_system_timestamp`: UPDATE `last_update` WHERE
`system_id` matches; rows with other keys (or a missing row) are
untouched. -/
def update_system_timestamp (db : Store) (system_id : Int) (now : Nat) :
    Store :=
  fun i =>
    if i = system_id then (db i).map (fun r => { r with last_update := now })
    else db i

end Database

/-! ## Remote Resolver (esi_client.py: `ESIClient.get_system_info`) -/

/-- The JSON body of a 2xx upstream response, restricted to the keys the
client reads; `none` marks a missing key (a `KeyError` on access). -/
structure ESIPayload where
  system_id : Option Int
  name : Option String
  pos_x : Option ℚ
  pos_y : Option ℚ
  pos_z : Option ℚ
deriving DecidableEq, Repr

/-- The dict `get_system_info` returns on success. -/
structure SystemInfo where
  system_id : Int
  name : String
  x : ℚ
  y : ℚ
  z : ℚ
deriving DecidableEq, Repr

/-- What the network produced for the single GET request:
a 2xx response with a JSON body, a non-2xx status (raising `HTTPError`
from `raise_for_status`), a timeout, a connection failure, or a 2xx
response whose body is not parseable JSON. -/
inductive UpstreamOutcome where
  | success (payload : ESIPayload)
  | httpStatus (code : Nat) (detail : String)
  | timeout (detail : String)
  | connectionFailure (detail : String)
  | invalidJson (detail : String)
deriving DecidableEq, Repr

/-- The Python exceptions that can escape `get_system_info` and
`get_or_fetch_system`: `ValueError`, `RuntimeError`, or the re-raised
`requests.exceptions.HTTPError` (which is neither of the former two). -/
inductive AppExn where
  | valueError (msg : String)
  | runtimeError (msg : String)
  | httpError (code : Nat) (detail : String)
deriving DecidableEq, Repr

/-- Field extraction from the payload (the dict construction in
`get_system_info`); `none` when any required key is missing. -/
def extractFields (data : ESIPayload) : Option SystemInfo :=
  match data.system_id, data.name, data.pos_x, data.pos_y, data.pos_z with
  | some i, some n, some x, some y, some z =>
    some { system_id := i, name := n, x := x, y := y, z := z }
  | _, _, _, _, _ => none

/-- The first missing key, in the access order of the dict literal
(`str(KeyError)` supplies the key name in the exception detail). -/
def missingKey (data : ESIPayload) : String :=
  if data.system_id.isNone then "system_id"
  else if data.name.isNone then "name"
  else if data.pos_x.isNone then "x"
  else if data.pos_y.isNone then "y"
  else "z"

/-- `ESIClient.get_system_info`, with the try/except chain of the source:
404 → `ValueError`; any other `HTTPError` is re-raised as itself (the bare
`raise`, NOT converted to `RuntimeError`); timeout / connection failure →
`RuntimeError` prefixed "Failed to fetch system data from ESI: ";
missing key or unparseable body → `RuntimeError` prefixed
"Invalid response format from ESI: ". -/
def get_system_info (system_id : Int) (upstream : UpstreamOutcome) :
    Except AppExn SystemInfo :=
  match upstream with
  | .success payload =>
    match extractFields payload with
    | some info => .ok info
    | none =>
      .error (.runtimeError ("Invalid response format from ESI: " ++ missingKey payload))
  | .httpStatus code detail =>
    if code = 404 then
      .error (.valueError ("System ID " ++ toString system_id ++ " not found"))
    else
      .error (.httpError code detail)
  | .timeout detail =>
    .error (.runtimeError ("Failed to fetch system data from ESI: " ++ detail))
  | .connectionFailure detail =>
    .error (.runtimeError ("Failed to fetch system data from ESI: " ++ detail))
  | .invalidJson detail =>
    .error (.runtimeError ("Invalid response format from ESI: " ++ detail))

/-! ## Resolution Service (app.py: `get_or_fetch_system`) -/

/-- The observable outcome of one `get_or_fetch_system` call: the value
returned (or the exception raised), the Store state afterwards, and
whether the ESI client was invoked. -/
structure FetchResult where
  result : Except AppExn SystemRecord
  db : Store
  esiCalled : Bool

/-- `app.get_or_fetch_system`. On a Store hit the row read FIRST is
returned, and `update_system_timestamp` runs after that read (so the
returned dict still carries the old `last_update`). On a miss the
resolver is called; its exceptions propagate with the Store unchanged; on
success the resolved fields are inserted (keyed by the id found in the
payload) and the row is re-read under the REQUESTED id — a failed
re-read raises the internal-consistency `RuntimeError`. Clock instants
for the touch and the insert are the explicit `tHit` / `tInsert`. -/
def get_or_fetch_system (db : Store) (system_id : Int)
    (upstream : UpstreamOutcome) (tHit tInsert : Nat) : FetchResult :=
  match Database.get_system db system_id with
  | some system_data =>
    { result := .ok system_data,
      db := Database.update_system_timestamp db system_id tHit,
      esiCalled := false }
  | none =>
    match get_system_info system_id upstream with
    | .error e => { result := .error e, db := db, esiCalled := true }
    | .ok esi_data =>
      let db1 := Database.insert_system db esi_data.system_id esi_data.name
        esi_data.x esi_data.y esi_data.z tInsert
      match Database.get_system db1 system_id with
      | none =>
        { result := .error (.runtimeError
            ("Failed to retrieve system " ++ toString system_id ++ " after inserting")),
          db := db1, esiCalled := true }
      | some db_record => { result := .ok db_record, db := db1, esiCalled := true }

/-! ## HTTP boundary (app.py: except chain of `calculate_distance_endpoint`) -/

/-- The status code and sanitized error body produced by the except
handlers of `calculate_distance_endpoint` for an exception escaping
`get_or_fetch_system`: a `ValueError` whose lowered message contains
"not found" → 404, other `ValueError` → 400; a `RuntimeError` whose
message contains "ESI" or whose lowered message contains "fetch" → 502,
other `RuntimeError` → 500; anything else (such as the re-raised
`HTTPError`) falls to the generic handler → 500. -/
def endpointErrorResponse : AppExn → Nat × String
  | .valueError msg =>
    if strContains (strLower msg) "not found" then
      (404, "One or more system IDs not found in EVE Online universe")
    else
      (400, "Invalid system data")
  | .runtimeError msg =>
    if strContains msg "ESI" || strContains (strLower msg) "fetch" then
      (502, "Unable to retrieve system information. Please try again later.")
    else
      (500, "A service error occurred")
  | .httpError _ _ => (500, "An unexpected error occurred")

/-! ## Distance Function (calculator.py, config.py) -/

/-- `config.LIGHTYEAR_IN_METERS`. -/
noncomputable def LIGHTYEAR_IN_METERS : ℝ := 9460000000000000

/-- The dict returned by `calculate_distance`. -/
structure DistanceResult where
  distance_meters : ℝ
  distance_lightyears : ℝ

/-- `calculator.calculate_distance`, with doubles idealised as reals. -/
noncomputable def calculate_distance (system1 system2 : SystemRecord) :
    DistanceResult :=
  let distance_meters : ℝ :=
    Real.sqrt (((system2.x : ℝ) - (system1.x : ℝ)) ^ 2 +
      ((system2.y : ℝ) - (system1.y : ℝ)) ^ 2 +
      ((system2.z : ℝ) - (system1.z : ℝ)) ^ 2)
  { distance_meters := distance_meters,
    distance_lightyears := distance_meters / LIGHTYEAR_IN_METERS }

/-! ## Operation vocabularies used by the invariants -/

/-- A single Coordinate Store operation (the contract of §4.1). -/
inductive StoreOp where
  | lookup (system_id : Int)
  | insert (system_id : Int) (name : String) (x y z : ℚ) (now : Nat)
  | touch (system_id : Int) (now : Nat)

/-- The Store state after one operation (lookup does not write). -/
def applyStoreOp (db : Store) : StoreOp → Store
  | .lookup _ => db
  | .insert i n x y z t => Database.insert_system db i n x y z t
  | .touch i t => Database.update_system_timestamp db i t

/-- The id an operation inserts at, if it is an insert. -/
def StoreOp.insertTarget : StoreOp → Option Int
  | .insert i _ _ _ _ _ => some i
  | _ => none

/-- The arguments of one Resolution Service call. -/
structure ResolveCall where
  system_id : Int
  upstream : UpstreamOutcome
  tHit : Nat
  tInsert : Nat

/-- Thread the Store through a sequence of Resolution Service calls. -/
def runResolveCalls (db : Store) : List ResolveCall → Store
  | [] => db
  | c :: rest =>
    runResolveCalls (get_or_fetch_system db c.system_id c.upstream c.tHit c.tInsert).db rest

/-! ## Concrete material for witnesses and counterexamples -/

/-- The empty Store. -/
def emptyStore : Store := fun _ => none

/-- The upstream payload of spec Scenario A (the system Jita). -/
def jitaPayload : ESIPayload :=
  { system_id := some 30000142, name := some "Jita",
    pos_x := some (-129400292875304960), pos_y := some 61596815791300400,
    pos_z := some 1720986748719556600 }

/-- A 2xx payload that lacks the position fields (the missing-fields case
of the repository test suite). -/
def noPositionPayload : ESIPayload :=
  { system_id := some 30000142, name := some "Jita",
    pos_x := none, pos_y := none, pos_z := none }

/-! ## Basic equations of the Resolution Service -/

theorem get_or_fetch_hit (db : Store) (i : Int) (u : UpstreamOutcome)
    (t1 t2 : Nat) (r : SystemRecord)
    (h : Database.get_system db i = some r) :
    get_or_fetch_system db i u t1 t2 =
      { result := .ok r,
        db := Database.update_system_timestamp db i t1,
        esiCalled := false } := by
  unfold get_or_fetch_system
  rw [h]

theorem get_or_fetch_miss_error (db : Store) (i : Int) (u : UpstreamOutcome)
    (t1 t2 : Nat) (e : AppExn)
    (hmiss : Database.get_system db i = none)
    (herr : get_system_info i u = .error e) :
    get_or_fetch_system db i u t1 t2 =
      { result := .error e, db := db, esiCalled := true } := by
  unfold get_or_fetch_system
  rw [hmiss, herr]

theorem get_or_fetch_miss_ok (db : Store) (i : Int) (u : UpstreamOutcome)
    (t1 t2 : Nat) (info : SystemInfo)
    (hmiss : Database.get_system db i = none)
    (hok : get_system_info i u = .ok info) :
    get_or_fetch_system db i u t1 t2 =
      match Database.get_system (Database.insert_system db info.system_id
          info.name info.x info.y info.z t2) i with
      | none =>
        { result := .error (.runtimeError
            ("Failed to retrieve system " ++ toString i ++ " after inserting")),
          db := Database.insert_system db info.system_id info.name info.x
            info.y info.z t2,
          esiCalled := true }
      | some db_record =>
        { result := .ok db_record,
          db := Database.insert_system db info.system_id info.name info.x
            info.y info.z t2,
          esiCalled := true } := by
  unfold get_or_fetch_system
  rw [hmiss, hok]

/-! ## Claim C3 -/

/-- C3: when the Resolver fails (any classified failure), the Resolution
Service propagates exactly that failure to its caller and the Coordinate
Store is returned unchanged — no insert, no touch. -/
theorem resolver_failure_propagates_store_unchanged (db : Store) (i : Int)
    (u : UpstreamOutcome) (t1 t2 : Nat) (e : AppExn)
    (hmiss : Database.get_system db i = none)
    (herr : get_system_info i u = .error e) :
    get_or_fetch_system db i u t1 t2 =
      { result := .error e, db := db, esiCalled := true } := by
  unfold get_or_fetch_system
  rw [hmiss, herr]

/-- Witness for C3 at a concrete input: empty store, upstream NotFound. -/
theorem resolver_failure_propagates_store_unchanged_witness :
    get_or_fetch_system emptyStore 30000142 (.httpStatus 404 "") 1 2 =
      { result := .error (.valueError "System ID 30000142 not found"),
        db := emptyStore, esiCalled := true } :=
  resolver_failure_propagates_store_unchanged emptyStore 30000142
    (.httpStatus 404 "") 1 2 (.valueError "System ID 30000142 not found")
    rfl rfl

/-! ## Claim C10 -/

/-- C10: on a cache hit the record the caller receives is the row read
BEFORE the touch, so its `last_update` is the previous access time, while
the Store row afterwards carries the touch time `t1`. -/
theorem cache_hit_returns_pre_touch_record (db : Store) (i : Int)
    (u : UpstreamOutcome) (t1 t2 : Nat) (r : SystemRecord)
    (h : Database.get_system db i = some r) :
    (get_or_fetch_system db i u t1 t2).result = .ok r ∧
    Database.get_system (get_or_fetch_system db i u t1 t2).db i =
      some { r with last_update := t1 } := by
  rw [get_or_fetch_hit db i u t1 t2 r h]
  refine ⟨rfl, ?_⟩
  simp only [Database.get_system, Database.update_system_timestamp, if_pos]
  have hr : db i = some r := h
  rw [hr]
  rfl

/-- A store holding exactly the Jita row, inserted at time 5. -/
def storeWithJita : Store :=
  Database.insert_system emptyStore 30000142 "Jita" (-129400292875304960)
    61596815791300400 1720986748719556600 5

/-- Witness for C10 at a concrete input: hit on the Jita row, touch at
time 9; the returned row still has `last_update = 5`, the stored row 9. -/
theorem cache_hit_returns_pre_touch_record_witness :
    (get_or_fetch_system storeWithJita 30000142 (.timeout "t") 9 11).result =
      .ok { system_id := 30000142, name := "Jita", x := -129400292875304960,
            y := 61596815791300400, z := 1720986748719556600,
            added := 5, last_update := 5 } ∧
    Database.get_system
        (get_or_fetch_system storeWithJita 30000142 (.timeout "t") 9 11).db
        30000142 =
      some { system_id := 30000142, name := "Jita", x := -129400292875304960,
             y := 61596815791300400, z := 1720986748719556600,
             added := 5, last_update := 9 } :=
  cache_hit_returns_pre_touch_record storeWithJita 30000142 (.timeout "t")
    9 11 _ rfl

/-! ## Claim C9 -/

/-- C9: once a row is in the Store, a lookup, an insert under another id,
or a touch under any id leaves its `system_id`, `name`, `x`, `y`, `z` and
`added` unchanged; only `last_update` can differ afterwards. -/
theorem store_ops_preserve_immutable_fields (db : Store) (i : Int)
    (r : SystemRecord) (op : StoreOp)
    (hin : Database.get_system db i = some r)
    (hnotins : op.insertTarget ≠ some i) :
    ∃ rr, Database.get_system (applyStoreOp db op) i = some rr ∧
      rr.system_id = r.system_id ∧ rr.name = r.name ∧ rr.x = r.x ∧
      rr.y = r.y ∧ rr.z = r.z ∧ rr.added = r.added := by
  cases op with
  | lookup j =>
    exact ⟨r, hin, rfl, rfl, rfl, rfl, rfl, rfl⟩
  | insert j n x y z t =>
    have hij : ¬ i = j := by
      intro hij
      exact hnotins (by simp [StoreOp.insertTarget, hij])
    refine ⟨r, ?_, rfl, rfl, rfl, rfl, rfl, rfl⟩
    simpa [applyStoreOp, Database.insert_system, Database.get_system, hij]
      using hin
  | touch j t =>
    by_cases hij : i = j
    · subst hij
      refine ⟨{ r with last_update := t }, ?_, rfl, rfl, rfl, rfl, rfl, rfl⟩
      have hr : db i = some r := hin
      simp [applyStoreOp, Database.update_system_timestamp,
        Database.get_system, hr]
    · refine ⟨r, ?_, rfl, rfl, rfl, rfl, rfl, rfl⟩
      simpa [applyStoreOp, Database.update_system_timestamp,
        Database.get_system, hij] using hin

/-- Witness for C9 at a concrete input: the Jita row survives a touch of
its own id with every field but `last_update` intact. -/
theorem store_ops_preserve_immutable_fields_witness :
    ∃ rr, Database.get_system
        (applyStoreOp storeWithJita (.touch 30000142 77)) 30000142 =
        some rr ∧
      rr.system_id = 30000142 ∧ rr.name = "Jita" ∧
      rr.x = -129400292875304960 ∧ rr.y = 61596815791300400 ∧
      rr.z = 1720986748719556600 ∧ rr.added = 5 :=
  store_ops_preserve_immutable_fields storeWithJita 30000142
    { system_id := 30000142, name := "Jita", x := -129400292875304960,
      y := 61596815791300400, z := 1720986748719556600,
      added := 5, last_update := 5 }
    (.touch 30000142 77) rfl (by decide)

/-! ## Presence invariants feeding the cache-then-hit claim -/

theorem get_or_fetch_preserves_presence (db : Store) (i j : Int)
    (u : UpstreamOutcome) (t1 t2 : Nat)
    (h : (Database.get_system db i).isSome = true) :
    (Database.get_system (get_or_fetch_system db j u t1 t2).db i).isSome
      = true := by
  cases hj : Database.get_system db j with
  | some rec =>
    rw [get_or_fetch_hit db j u t1 t2 rec hj]
    by_cases hij : i = j
    · subst hij
      have hr : db i = some rec := hj
      simp [Database.get_system, Database.update_system_timestamp, hr]
    · simpa [Database.get_system, Database.update_system_timestamp, hij]
        using h
  | none =>
    cases he : get_system_info j u with
    | error e =>
      rw [get_or_fetch_miss_error db j u t1 t2 e hj he]
      exact h
    | ok info =>
      rw [get_or_fetch_miss_ok db j u t1 t2 info hj he]
      cases hg : Database.get_system (Database.insert_system db
          info.system_id info.name info.x info.y info.z t2) j with
      | none =>
        by_cases his : i = info.system_id
        · simp [Database.get_system, Database.insert_system, his]
        · simpa [Database.get_system, Database.insert_system, his] using h
      | some rec =>
        by_cases his : i = info.system_id
        · simp [Database.get_system, Database.insert_system, his]
        · simpa [Database.get_system, Database.insert_system, his] using h

theorem runResolveCalls_preserves_presence (calls : List ResolveCall)
    (db : Store) (i : Int)
    (h : (Database.get_system db i).isSome = true) :
    (Database.get_system (runResolveCalls db calls) i).isSome = true := by
  induction calls generalizing db with
  | nil => exact h
  | cons c rest ih =>
    exact ih _ (get_or_fetch_preserves_presence db i c.system_id c.upstream
      c.tHit c.tInsert h)

theorem result_ok_present (db : Store) (i : Int) (u : UpstreamOutcome)
    (t1 t2 : Nat) (r : SystemRecord)
    (h : (get_or_fetch_system db i u t1 t2).result = .ok r) :
    (Database.get_system (get_or_fetch_system db i u t1 t2).db i).isSome
      = true := by
  cases hj : Database.get_system db i with
  | some rec =>
    rw [get_or_fetch_hit db i u t1 t2 rec hj]
    have hr : db i = some rec := hj
    simp [Database.get_system, Database.update_system_timestamp, hr]
  | none =>
    cases he : get_system_info i u with
    | error e =>
      rw [get_or_fetch_miss_error db i u t1 t2 e hj he] at h
      exact absurd h (by simp)
    | ok info =>
      rw [get_or_fetch_miss_ok db i u t1 t2 info hj he] at h ⊢
      cases hg : Database.get_system (Database.insert_system db
          info.system_id info.name info.x info.y info.z t2) i with
      | none => rw [hg] at h; exact absurd h (by simp)
      | some rec => rw [hg]; simp [hg]

/-! ## Claim C4 -/

/-- C4: once a resolution of an id has succeeded, every later resolution
of that id — after any interleaved Resolution Service activity — takes
the cache-hit path: the ESI client is not invoked, the stored row is
returned, and only its staleness timestamp is touched. -/
theorem after_first_success_resolver_never_reinvoked (db : Store) (i : Int)
    (u : UpstreamOutcome) (t1 t2 : Nat) (r : SystemRecord)
    (hfirst : (get_or_fetch_system db i u t1 t2).result = .ok r)
    (calls : List ResolveCall) (u2 : UpstreamOutcome) (t3 t4 : Nat) :
    ∃ rr,
      Database.get_system
          (runResolveCalls (get_or_fetch_system db i u t1 t2).db calls) i =
        some rr ∧
      get_or_fetch_system
          (runResolveCalls (get_or_fetch_system db i u t1 t2).db calls)
          i u2 t3 t4 =
        { result := .ok rr,
          db := Database.update_system_timestamp
            (runResolveCalls (get_or_fetch_system db i u t1 t2).db calls)
            i t3,
          esiCalled := false } := by
  have h1 := result_ok_present db i u t1 t2 r hfirst
  have h2 := runResolveCalls_preserves_presence calls _ i h1
  obtain ⟨rr, hrr⟩ := Option.isSome_iff_exists.mp h2
  exact ⟨rr, hrr, get_or_fetch_hit _ i u2 t3 t4 rr hrr⟩

/-- Witness for C4 at a concrete input: resolve Jita against the empty
store, let an unrelated failing call go by, and resolve Jita again. -/
theorem after_first_success_resolver_never_reinvoked_witness :
    ∃ rr,
      Database.get_system
          (runResolveCalls
            (get_or_fetch_system emptyStore 30000142
              (.success jitaPayload) 1 2).db
            [{ system_id := 30000144, upstream := .timeout "late",
               tHit := 3, tInsert := 4 }]) 30000142 =
        some rr ∧
      get_or_fetch_system
          (runResolveCalls
            (get_or_fetch_system emptyStore 30000142
              (.success jitaPayload) 1 2).db
            [{ system_id := 30000144, upstream := .timeout "late",
               tHit := 3, tInsert := 4 }])
          30000142 (.connectionFailure "down") 7 8 =
        { result := .ok rr,
          db := Database.update_system_timestamp
            (runResolveCalls
              (get_or_fetch_system emptyStore 30000142
                (.success jitaPayload) 1 2).db
              [{ system_id := 30000144, upstream := .timeout "late",
                 tHit := 3, tInsert := 4 }])
            30000142 7,
          esiCalled := false } :=
  after_first_success_resolver_never_reinvoked emptyStore 30000142
    (.success jitaPayload) 1 2
    { system_id := 30000142, name := "Jita", x := -129400292875304960,
      y := 61596815791300400, z := 1720986748719556600,
      added := 2, last_update := 2 }
    rfl
    [{ system_id := 30000144, upstream := .timeout "late",
       tHit := 3, tInsert := 4 }]
    (.connectionFailure "down") 7 8

/-! ## Claim C5 -/

/-- C5: resolving the same id twice in a row (both calls returning a
record, under a clock that never runs backwards) yields identical
`system_id`, `name`, `x`, `y`, `z` both times, and the `last_update` of
the second returned record is at least that of the first. -/
theorem resolve_twice_same_fields_monotone_timestamp (db : Store) (i : Int)
    (u1 u2 : UpstreamOutcome) (t1 t2 t3 t4 : Nat) (r1 r2 : SystemRecord)
    (hclock : ∀ rec, Database.get_system db i = some rec →
      rec.last_update ≤ t1)
    (h1 : (get_or_fetch_system db i u1 t1 t2).result = .ok r1)
    (h2 : (get_or_fetch_system (get_or_fetch_system db i u1 t1 t2).db
      i u2 t3 t4).result = .ok r2) :
    r2.system_id = r1.system_id ∧ r2.name = r1.name ∧ r2.x = r1.x ∧
    r2.y = r1.y ∧ r2.z = r1.z ∧ r1.last_update ≤ r2.last_update := by
  cases hdb : Database.get_system db i with
  | some rec =>
    rw [get_or_fetch_hit db i u1 t1 t2 rec hdb] at h1 h2
    have hr1 : r1 = rec := by simpa using h1.symm
    have hget2 : Database.get_system
        (Database.update_system_timestamp db i t1) i =
        some { rec with last_update := t1 } := by
      have hr : db i = some rec := hdb
      simp [Database.get_system, Database.update_system_timestamp, hr]
    rw [get_or_fetch_hit _ i u2 t3 t4 _ hget2] at h2
    have hr2 : r2 = { rec with last_update := t1 } := by simpa using h2.symm
    subst hr1
    subst hr2
    exact ⟨rfl, rfl, rfl, rfl, rfl, hclock _ hdb⟩
  | none =>
    cases he : get_system_info i u1 with
    | error e =>
      rw [get_or_fetch_miss_error db i u1 t1 t2 e hdb he] at h1
      exact absurd h1 (by simp)
    | ok info =>
      rw [get_or_fetch_miss_ok db i u1 t1 t2 info hdb he] at h1 h2
      cases hg : Database.get_system (Database.insert_system db
          info.system_id info.name info.x info.y info.z t2) i with
      | none =>
        rw [hg] at h1
        exact absurd h1 (by simp)
      | some rec1 =>
        rw [hg] at h1 h2
        have hr1 : r1 = rec1 := by simpa using h1.symm
        rw [get_or_fetch_hit _ i u2 t3 t4 rec1 hg] at h2
        have hr2 : r2 = rec1 := by simpa using h2.symm
        subst hr1
        subst hr2
        exact ⟨rfl, rfl, rfl, rfl, rfl, le_refl _⟩

/-- Witness for C5 at a concrete input: first resolution fills the cache
from the Jita payload, the second hits it; both return the same fields
and the same `last_update`. -/
theorem resolve_twice_same_fields_monotone_timestamp_witness :
    ({ system_id := 30000142, name := "Jita", x := -129400292875304960,
       y := 61596815791300400, z := 1720986748719556600,
       added := 2, last_update := 2 } : SystemRecord).system_id =
      ({ system_id := 30000142, name := "Jita", x := -129400292875304960,
         y := 61596815791300400, z := 1720986748719556600,
         added := 2, last_update := 2 } : SystemRecord).system_id ∧
    (2 : Nat) ≤ 2 := by
  have h := resolve_twice_same_fields_monotone_timestamp emptyStore 30000142
    (.success jitaPayload) (.timeout "x") 1 2 9 10
    { system_id := 30000142, name := "Jita", x := -129400292875304960,
      y := 61596815791300400, z := 1720986748719556600,
      added := 2, last_update := 2 }
    { system_id := 30000142, name := "Jita", x := -129400292875304960,
      y := 61596815791300400, z := 1720986748719556600,
      added := 2, last_update := 2 }
    (fun r0 hr0 => Option.noConfusion hr0) rfl rfl
  exact ⟨h.1, h.2.2.2.2.2⟩

/-! ## Status mapping facts for the two sanitized RuntimeError messages -/

theorem invalid_format_status (m : String) :
    (endpointErrorResponse (.runtimeError
      ("Invalid response format from ESI: " ++ m))).1 = 502 := by
  have h : strContains ("Invalid response format from ESI: " ++ m) "ESI"
      = true :=
    strContains_append_left "Invalid response format from ESI: " m "ESI"
      (by decide)
  simp [endpointErrorResponse, h]

theorem fetch_failed_status (m : String) :
    (endpointErrorResponse (.runtimeError
      ("Failed to fetch system data from ESI: " ++ m))).1 = 502 := by
  have h : strContains ("Failed to fetch system data from ESI: " ++ m) "ESI"
      = true :=
    strContains_append_left "Failed to fetch system data from ESI: " m "ESI"
      (by decide)
  simp [endpointErrorResponse, h]

/-! ## Claim C1 (corrected) -/

/-- C1 counterexample: for the concrete 2xx payload that lacks its
position fields, the resolution raises the invalid-response-format
`RuntimeError` — the code image of `MalformedUpstreamData` — yet the
endpoint handler maps it to status 502, not the claimed 500, because the
sanitized message contains "ESI". -/
theorem malformed_upstream_not_500_cex :
    get_system_info 30000142 (.success noPositionPayload) =
      .error (.runtimeError "Invalid response format from ESI: x") ∧
    endpointErrorResponse
        (.runtimeError "Invalid response format from ESI: x") =
      (502, "Unable to retrieve system information. Please try again later.") ∧
    (endpointErrorResponse
        (.runtimeError "Invalid response format from ESI: x")).1 ≠ 500 :=
  ⟨rfl, by decide, by decide⟩

/-- C1 amended: every resolution whose upstream response misses a
required field or has a non-parseable payload fails with the
invalid-response-format `RuntimeError` (`MalformedUpstreamData`), and the
HTTP boundary returns status 502 for it — not 500 — since the message
carries the "ESI" marker the 502 handler matches first. -/
theorem malformed_upstream_returns_502 (db : Store) (i : Int)
    (p : ESIPayload) (d : String) (t1 t2 : Nat)
    (hmiss : Database.get_system db i = none)
    (hp : extractFields p = none) :
    (get_or_fetch_system db i (.success p) t1 t2).result =
      .error (.runtimeError
        ("Invalid response format from ESI: " ++ missingKey p)) ∧
    (get_or_fetch_system db i (.invalidJson d) t1 t2).result =
      .error (.runtimeError ("Invalid response format from ESI: " ++ d)) ∧
    (∀ m, (endpointErrorResponse (.runtimeError
      ("Invalid response format from ESI: " ++ m))).1 = 502) := by
  refine ⟨?_, ?_, fun m => invalid_format_status m⟩
  · have he : get_system_info i (.success p) =
        .error (.runtimeError
          ("Invalid response format from ESI: " ++ missingKey p)) := by
      simp [get_system_info, hp]
    rw [get_or_fetch_miss_error db i (.success p) t1 t2 _ hmiss he]
  · rw [get_or_fetch_miss_error db i (.invalidJson d) t1 t2
      (.runtimeError ("Invalid response format from ESI: " ++ d)) hmiss rfl]

/-- Witness for the amended C1 at concrete inputs. -/
theorem malformed_upstream_returns_502_witness :
    (get_or_fetch_system emptyStore 30000142
        (.success noPositionPayload) 1 2).result =
      .error (.runtimeError "Invalid response format from ESI: x") ∧
    (get_or_fetch_system emptyStore 30000142 (.invalidJson "oops") 1 2).result =
      .error (.runtimeError "Invalid response format from ESI: oops") ∧
    (endpointErrorResponse
        (.runtimeError "Invalid response format from ESI: x")).1 = 502 := by
  obtain ⟨h1, h2, h3⟩ := malformed_upstream_returns_502 emptyStore 30000142
    noPositionPayload "oops" 1 2 rfl rfl
  exact ⟨h1, h2, h3 "x"⟩

/-! ## Claim C2 (corrected) -/

/-- C2 counterexample: a concrete upstream 503 is re-raised as the raw
`HTTPError`, which only the generic handler catches: the endpoint returns
500, not the claimed 502. -/
theorem non404_status_returns_500_cex :
    get_system_info 30000142 (.httpStatus 503 "Server Error") =
      .error (.httpError 503 "Server Error") ∧
    endpointErrorResponse (.httpError 503 "Server Error") =
      (500, "An unexpected error occurred") ∧
    (endpointErrorResponse (.httpError 503 "Server Error")).1 ≠ 502 :=
  ⟨rfl, rfl, by decide⟩

/-- C2 amended: a timeout or connection failure is classified as the
fetch-failure `RuntimeError` (`TransientUnavailable`) and the boundary
returns 502 for it; but an upstream non-2xx / non-404 status is re-raised
as the raw `HTTPError`, is never classified, and the boundary returns 500
for it. -/
theorem transient_502_but_non404_status_500 (db : Store) (i : Int)
    (d dc : String) (code : Nat) (t1 t2 : Nat)
    (hmiss : Database.get_system db i = none)
    (hcode : code ≠ 404) :
    ((get_or_fetch_system db i (.timeout d) t1 t2).result =
        .error (.runtimeError
          ("Failed to fetch system data from ESI: " ++ d)) ∧
      (endpointErrorResponse (.runtimeError
        ("Failed to fetch system data from ESI: " ++ d))).1 = 502) ∧
    ((get_or_fetch_system db i (.connectionFailure d) t1 t2).result =
        .error (.runtimeError
          ("Failed to fetch system data from ESI: " ++ d)) ∧
      (endpointErrorResponse (.runtimeError
        ("Failed to fetch system data from ESI: " ++ d))).1 = 502) ∧
    ((get_or_fetch_system db i (.httpStatus code dc) t1 t2).result =
        .error (.httpError code dc) ∧
      (endpointErrorResponse (.httpError code dc)).1 = 500) := by
  refine ⟨⟨?_, fetch_failed_status d⟩, ⟨?_, fetch_failed_status d⟩,
    ⟨?_, rfl⟩⟩
  · rw [get_or_fetch_miss_error db i (.timeout d) t1 t2
      (.runtimeError ("Failed to fetch system data from ESI: " ++ d))
      hmiss rfl]
  · rw [get_or_fetch_miss_error db i (.connectionFailure d) t1 t2
      (.runtimeError ("Failed to fetch system data from ESI: " ++ d))
      hmiss rfl]
  · have he : get_system_info i (.httpStatus code dc) =
        .error (.httpError code dc) := by
      simp [get_system_info, hcode]
    rw [get_or_fetch_miss_error db i (.httpStatus code dc) t1 t2
      (.httpError code dc) hmiss he]

/-- Witness for the amended C2 at concrete inputs. -/
theorem transient_502_but_non404_status_500_witness :
    ((get_or_fetch_system emptyStore 30000142 (.timeout "slow") 1 2).result =
        .error (.runtimeError
          "Failed to fetch system data from ESI: slow") ∧
      (endpointErrorResponse (.runtimeError
        "Failed to fetch system data from ESI: slow")).1 = 502) ∧
    ((get_or_fetch_system emptyStore 30000142
        (.connectionFailure "slow") 1 2).result =
        .error (.runtimeError
          "Failed to fetch system data from ESI: slow") ∧
      (endpointErrorResponse (.runtimeError
        "Failed to fetch system data from ESI: slow")).1 = 502) ∧
    ((get_or_fetch_system emptyStore 30000142
        (.httpStatus 503 "Server Error") 1 2).result =
        .error (.httpError 503 "Server Error") ∧
      (endpointErrorResponse (.httpError 503 "Server Error")).1 = 500) :=
  transient_502_but_non404_status_500 emptyStore 30000142 "slow"
    "Server Error" 503 1 2 rfl (by decide)

/-! ## Distance Function claims -/

theorem calculate_distance_meters_eq (a b : SystemRecord) :
    (calculate_distance a b).distance_meters =
      Real.sqrt (((b.x : ℝ) - (a.x : ℝ)) ^ 2 + ((b.y : ℝ) - (a.y : ℝ)) ^ 2 +
        ((b.z : ℝ) - (a.z : ℝ)) ^ 2) := rfl

theorem calculate_distance_ly_eq (a b : SystemRecord) :
    (calculate_distance a b).distance_lightyears =
      (calculate_distance a b).distance_meters / LIGHTYEAR_IN_METERS := rfl

/-- C6: for every record, the distance from the record to itself is
exactly zero in both the meters and the light-years output. -/
theorem distance_self_is_zero (a : SystemRecord) :
    (calculate_distance a a).distance_meters = 0 ∧
    (calculate_distance a a).distance_lightyears = 0 := by
  have hm : (calculate_distance a a).distance_meters = 0 := by
    rw [calculate_distance_meters_eq]
    simp
  refine ⟨hm, ?_⟩
  rw [calculate_distance_ly_eq, hm]
  simp

/-- C7: for every pair of records, the light-years output is exactly the
meters output divided by the fixed constant 9460000000000000 — the very
division the function performs, with no further rounding. -/
theorem lightyears_is_meters_div_constant (a b : SystemRecord) :
    (calculate_distance a b).distance_lightyears =
      (calculate_distance a b).distance_meters / 9460000000000000 := rfl

/-- The point (0, 0, 0) of spec Scenarios B and C. -/
def originRecord : SystemRecord :=
  { system_id := 30000001, name := "Origin", x := 0, y := 0, z := 0,
    added := 0, last_update := 0 }

/-- The point (9460000000000000, 0, 0) of spec Scenario B. -/
def oneLightYearRecord : SystemRecord :=
  { system_id := 30000002, name := "OneLY", x := 9460000000000000,
    y := 0, z := 0, added := 0, last_update := 0 }

/-- The point (3, 4, 12) of spec Scenario C. -/
def pythagoreanRecord : SystemRecord :=
  { system_id := 30000003, name := "Triple", x := 3, y := 4, z := 12,
    added := 0, last_update := 0 }

/-- C8: the worked examples are exact: Scenario B gives
9460000000000000 meters and exactly 1 light-year; Scenario C gives
exactly 13 meters. -/
theorem distance_worked_examples_exact :
    (calculate_distance originRecord oneLightYearRecord).distance_meters =
      9460000000000000 ∧
    (calculate_distance originRecord oneLightYearRecord).distance_lightyears
      = 1 ∧
    (calculate_distance originRecord pythagoreanRecord).distance_meters =
      13 := by
  have hm : (calculate_distance originRecord
      oneLightYearRecord).distance_meters = 9460000000000000 := by
    rw [calculate_distance_meters_eq]
    have hsum : (((oneLightYearRecord.x : ℝ) - (originRecord.x : ℝ)) ^ 2 +
        ((oneLightYearRecord.y : ℝ) - (originRecord.y : ℝ)) ^ 2 +
        ((oneLightYearRecord.z : ℝ) - (originRecord.z : ℝ)) ^ 2) =
        (9460000000000000 : ℝ) ^ 2 := by
      norm_num [originRecord, oneLightYearRecord]
    rw [hsum, Real.sqrt_sq (by norm_num)]
  refine ⟨hm, ?_, ?_⟩
  · rw [calculate_distance_ly_eq, hm]
    unfold LIGHTYEAR_IN_METERS
    norm_num
  · rw [calculate_distance_meters_eq]
    have hsum : (((pythagoreanRecord.x : ℝ) - (originRecord.x : ℝ)) ^ 2 +
        ((pythagoreanRecord.y : ℝ) - (originRecord.y : ℝ)) ^ 2 +
        ((pythagoreanRecord.z : ℝ) - (originRecord.z : ℝ)) ^ 2) =
        (13 : ℝ) ^ 2 := by
      norm_num [originRecord, pythagoreanRecord]
    rw [hsum, Real.sqrt_sq (by norm_num)]
